import Mathlib

/-!
Shallow embedding of the notification ingestion and deduplication logic of
`VideoAnalysisApp/App.tsx` (the single screen of the AI-powered smart
surveillance client), together with proofs about it.

Strings are modelled as `List Char` (JavaScript `substring`/`length` become
`List.take`/`List.length`); timestamps and `Date.now()` readings are `Nat`
(the millisecond count; `toString` is injective on it, so id collisions are
preserved exactly).  The locale time formatting of `toLocaleTimeString` is
presentation-only and is modelled as the underlying instant itself.
React state setters become pure functions from the previous state to the new
state; the `Alert.alert` side effect is modelled as the list of alerts the
call raises.
-/

namespace Surveillance

/-- The `type` field of a notification: `'anomaly' | 'info'` in the source. -/
inductive NotifType where
  | anomaly
  | info
deriving DecidableEq, Repr

/-- The `interface Notification` of App.tsx (id is the `Date.now()` reading whose
decimal string the source stores; `time` is the instant whose locale rendering
the source stores). -/
structure Notification where
  id : Nat
  time : Nat
  message : List Char
  type : NotifType
deriving DecidableEq, Repr

/-- One `Alert.alert(title, body, [{text: OK}])` popup raised by the code. -/
structure AlertPopup where
  title : String
  body : List Char
deriving DecidableEq, Repr

/-- Line 104 of App.tsx:
`message.substring(0, 100) + (message.length > 100 ? ... : )`. -/
def computeMessage (message : List Char) : List Char :=
  message.take 100 ++ (if 100 < message.length then ['.', '.', '.'] else [])

/-- Lines 99-106 of App.tsx: the `newNotification` object built by
`addNotification(message, timestamp, isCustom)` when `Date.now()` reads
`now`.  `time` is `timestamp` if present (truthy) else the current instant. -/
def mkNotification (message : List Char) (timestamp : Option Nat)
    (isCustom : Bool) (now : Nat) : Notification :=
  { id := now
    time := timestamp.getD now
    message := computeMessage message
    type := if isCustom then NotifType.info else NotifType.anomaly }

/-- Lines 108-111 of App.tsx: the updater passed to `setNotifications`:
if some retained notification has the same `message`, return `prev`
unchanged (prevent duplicate); otherwise prepend and keep `prev.slice(0, 9)`. -/
def insertNotification (n : Notification) (prev : List Notification) :
    List Notification :=
  if prev.any (fun m => m.message == n.message) then prev
  else n :: prev.take 9

/-- Lines 98-117 of App.tsx: `addNotification`.  Returns the new notification
list and the alerts raised by the call.  `Alert.alert` at line 114 is outside
the dedup check, so exactly one alert is raised on every call. -/
def addNotification (message : List Char) (timestamp : Option Nat)
    (isCustom : Bool) (now : Nat) (prev : List Notification) :
    List Notification × List AlertPopup :=
  (insertNotification (mkNotification message timestamp isCustom now) prev,
   [{ title := if isCustom then "Custom Anomaly Detected!" else "Anomaly Detected!"
      body := message }])

/-- The `interface SystemStatus` of App.tsx. -/
structure SystemStatus where
  live_tracking_active : Bool
  last_analysis_time : List Char
  frames_captured : Nat
  timestamp : List Char
deriving DecidableEq, Repr

/-- The `interface AnomalyData` of App.tsx. -/
structure AnomalyData where
  has_anomaly : Bool
  report : List Char
  timestamp : Option Nat
deriving DecidableEq, Repr

/-- The three state hooks of the `App` component that the fetch handlers
mutate: `systemStatus`, `anomalyData`, `notifications`. -/
structure AppState where
  systemStatus : Option SystemStatus
  anomalyData : Option AnomalyData
  notifications : List Notification
deriving DecidableEq, Repr

/-- The parsed body of a successful `/api/anomalies/latest` response:
`AnomalyData & \x7b success: boolean \x7d`. -/
structure AnomalyResponse where
  success : Bool
  has_anomaly : Bool
  report : List Char
  timestamp : Option Nat
deriving DecidableEq, Repr

/-- Lines 63-77 of App.tsx: `fetchAnomalyData` on a 2xx response with parsed
body `resp`, with `Date.now()` reading `now`.  It always stores the snapshot;
it calls `addNotification` only when `data.success && data.has_anomaly &&
data.report` (a non-empty report string is truthy). -/
def fetchAnomalyData (resp : AnomalyResponse) (now : Nat) (s : AppState) :
    AppState × List AlertPopup :=
  let s1 : AppState :=
    { s with anomalyData := some ⟨resp.has_anomaly, resp.report, resp.timestamp⟩ }
  if resp.success && resp.has_anomaly && !resp.report.isEmpty then
    let r := addNotification resp.report resp.timestamp false now s1.notifications
    ({ s1 with notifications := r.1 }, r.2)
  else (s1, [])

/-- One element of the `/api/get-custom-anomalies` array:
`\x7b anomaly: string; timestamp?: string \x7d`. -/
structure CustomAnomaly where
  anomaly : List Char
  timestamp : Option Nat
deriving DecidableEq, Repr

/-- The parsed body of a 2xx `/api/get-custom-anomalies` response: either a
JSON array or some non-array value (`Array.isArray(data)` fails). -/
inductive CustomResponse where
  | jsonArray (items : List CustomAnomaly)
  | nonArray
deriving DecidableEq, Repr

/-- Lines 80-95 of App.tsx: `fetchCustomAnomalies` on a 2xx response with
parsed body `resp`.  When the body is an array with `length > 0` it calls
`addNotification(custom.anomaly, custom.timestamp, true)` per element in
order; otherwise it touches nothing.  `now` is the `Date.now()` reading
(the synchronous `forEach` runs within one millisecond). -/
def fetchCustomAnomalies (resp : CustomResponse) (now : Nat) (s : AppState) :
    AppState × List AlertPopup :=
  match resp with
  | .nonArray => (s, [])
  | .jsonArray items =>
    if items.length > 0 then
      let r := items.foldl
        (fun (acc : List Notification × List AlertPopup) c =>
          let r1 := addNotification c.anomaly c.timestamp true now acc.1
          (r1.1, acc.2 ++ r1.2))
        (s.notifications, [])
      ({ s with notifications := r.1 }, r.2)
    else (s, [])

/-- Lines 120-127 of App.tsx: `clearAnomalyFlag`.  The POST is awaited first;
if it rejects (`postFails = true`) the catch block only logs and
`setAnomalyData` never runs.  If it resolves (any HTTP status — the response
is not inspected), the updater maps `some a` to `some \x7b a with has_anomaly
:= false \x7d` and `none` to `none`. -/
def clearAnomalyFlag (postFails : Bool) (prev : Option AnomalyData) :
    Option AnomalyData :=
  if postFails then prev
  else
    match prev with
    | some a => some { a with has_anomaly := false }
    | none => none

/-- A single ingestion call, from either source: `live` is
`addNotification(m, ts)` (from `fetchAnomalyData`), `custom` is
`addNotification(m, ts, true)` (from `fetchCustomAnomalies`). -/
inductive IngestCall where
  | live (message : List Char) (timestamp : Option Nat) (now : Nat)
  | custom (message : List Char) (timestamp : Option Nat) (now : Nat)
deriving DecidableEq, Repr

/-- Apply one ingestion call to the retained list. -/
def applyCall (acc : List Notification) (c : IngestCall) : List Notification :=
  match c with
  | .live m ts now => (addNotification m ts false now acc).1
  | .custom m ts now => (addNotification m ts true now acc).1

/-- Run a sequence of ingestion calls starting from the empty list. -/
def runCalls (calls : List IngestCall) : List Notification :=
  calls.foldl applyCall []

/-- Concrete reports for the twelve-report eviction scenario of the spec:
the strings of 1 to 12. -/
def twelveReports : List (List Char) :=
  [['1'], ['2'], ['3'], ['4'], ['5'], ['6'], ['7'], ['8'], ['9'],
   ['1', '0'], ['1', '1'], ['1', '2']]

/-- The twelve-report scenario as live ingestion calls. -/
def twelveCalls : List IngestCall :=
  twelveReports.map fun m => IngestCall.live m none 0

/-- A concrete full list of ten notifications with distinct messages
(letters A to J), for the eviction witness. -/
def demoTen : List Notification :=
  (List.range 10).map fun i =>
    { id := i, time := i, message := [Char.ofNat (65 + i)], type := NotifType.anomaly }

/-- A fresh eleventh notification whose message Z is not in `demoTen`. -/
def demoNew : Notification :=
  { id := 100, time := 100, message := ['Z'], type := NotifType.anomaly }

/-- A retained notification with message a, for the dedup witness. -/
def demoDup : Notification :=
  { id := 0, time := 0, message := ['a'], type := NotifType.anomaly }

/-! ## Helper lemmas -/

lemma length_insertNotification_le (n : Notification) (prev : List Notification)
    (h : prev.length ≤ 10) : (insertNotification n prev).length ≤ 10 := by
  unfold insertNotification
  split
  · exact h
  · simp only [List.length_cons, List.length_take]
    omega

lemma length_applyCall_le (acc : List Notification) (c : IngestCall)
    (h : acc.length ≤ 10) : (applyCall acc c).length ≤ 10 := by
  cases c <;> exact length_insertNotification_le _ _ h

lemma length_foldl_applyCall_le (calls : List IngestCall) :
    ∀ acc : List Notification, acc.length ≤ 10 →
      (calls.foldl applyCall acc).length ≤ 10 := by
  induction calls with
  | nil => intro acc h; simpa using h
  | cons c cs ih => intro acc h; exact ih _ (length_applyCall_le acc c h)

lemma pairwise_insertNotification (n : Notification) (prev : List Notification)
    (h : prev.Pairwise fun a b => a.message ≠ b.message) :
    (insertNotification n prev).Pairwise fun a b => a.message ≠ b.message := by
  unfold insertNotification
  split
  next => exact h
  next hdup =>
    refine List.Pairwise.cons ?_ (h.sublist (List.take_sublist 9 prev))
    intro b hb he
    exact hdup (List.any_eq_true.mpr
      ⟨b, List.mem_of_mem_take hb, beq_iff_eq.mpr he.symm⟩)

lemma pairwise_applyCall (acc : List Notification) (c : IngestCall)
    (h : acc.Pairwise fun a b => a.message ≠ b.message) :
    (applyCall acc c).Pairwise fun a b => a.message ≠ b.message := by
  cases c <;> exact pairwise_insertNotification _ _ h

lemma pairwise_foldl_applyCall (calls : List IngestCall) :
    ∀ acc : List Notification, acc.Pairwise (fun a b => a.message ≠ b.message) →
      (calls.foldl applyCall acc).Pairwise fun a b => a.message ≠ b.message := by
  induction calls with
  | nil => intro acc h; simpa using h
  | cons c cs ih => intro acc h; exact ih _ (pairwise_applyCall acc c h)

lemma insertNotification_of_exists (n : Notification) (prev : List Notification)
    (h : ∃ p ∈ prev, p.message = n.message) : insertNotification n prev = prev := by
  unfold insertNotification
  rw [if_pos]
  obtain ⟨p, hp, he⟩ := h
  exact List.any_eq_true.mpr ⟨p, hp, beq_iff_eq.mpr he⟩

lemma exists_message_insertNotification (n : Notification) (prev : List Notification) :
    ∃ p ∈ insertNotification n prev, p.message = n.message := by
  unfold insertNotification
  split
  next hdup =>
    obtain ⟨p, hp, he⟩ := List.any_eq_true.mp hdup
    exact ⟨p, hp, beq_iff_eq.mp he⟩
  next => exact ⟨n, List.mem_cons_self n _, rfl⟩

/-! ## Claims -/

/-- Claim C1, counterexample: from the empty list, ingesting the report a
twice raises an alert on the second call as well.  The first call retains one
notification and raises one alert; the second call leaves the list unchanged
but its alert list is nonempty, contradicting the second call alerts
nothing. -/
theorem addNotification_second_call_still_alerts :
    ((addNotification ['a'] none false 0 []).1.length = 1) ∧
    ((addNotification ['a'] none false 1
        (addNotification ['a'] none false 0 []).1).1
      = (addNotification ['a'] none false 0 []).1) ∧
    ((addNotification ['a'] none false 1
        (addNotification ['a'] none false 0 []).1).2 ≠ []) := by
  refine ⟨by decide, by decide, by decide⟩

/-- Claim C1, amended: calling `addNotification` twice in succession with the
same report leaves exactly one retained copy of the report (the second call
does not mutate the list), but each of the two calls raises exactly one
user-facing alert — the duplicate is alerted again, because `Alert.alert`
is invoked outside the deduplication check. -/
theorem addNotification_duplicate_once_retained_twice_alerted
    (message : List Char) (ts1 ts2 : Option Nat) (now1 now2 : Nat)
    (prev : List Notification) :
    (addNotification message ts2 false now2
        (addNotification message ts1 false now1 prev).1).1
      = (addNotification message ts1 false now1 prev).1 ∧
    (addNotification message ts1 false now1 prev).2.length = 1 ∧
    (addNotification message ts2 false now2
        (addNotification message ts1 false now1 prev).1).2.length = 1 := by
  refine ⟨?_, rfl, rfl⟩
  exact insertNotification_of_exists _ _ (exists_message_insertNotification _ _)

/-- Claim C2, counterexample: when the POST rejects with a transport error,
the anomaly flag does not flip — the snapshot still has `has_anomaly = true`,
contradicting the claim that the local flag flips unconditionally. -/
theorem clearAnomalyFlag_transport_error_keeps_flag :
    (clearAnomalyFlag true (some ⟨true, ['x'], none⟩)).map AnomalyData.has_anomaly
      = some true := by decide

/-- Claim C2, amended: `clearAnomalyFlag` flips the local `has_anomaly` to
`false` only when the POST resolves (its HTTP status is never inspected);
when the POST rejects with a transport error, the caught exception skips the
local update and the snapshot is unchanged. -/
theorem clearAnomalyFlag_local_update (prev : Option AnomalyData) :
    clearAnomalyFlag true prev = prev ∧
    clearAnomalyFlag false prev
      = prev.map fun a => { a with has_anomaly := false } := by
  refine ⟨rfl, ?_⟩
  cases prev <;> rfl

/-- Claim C3: the stored message is the report verbatim when its length is at
most 100 characters, and exactly the first 100 characters followed by the
three-dot truncation marker when it is longer. -/
theorem computeMessage_truncation (m : List Char) :
    (m.length ≤ 100 → computeMessage m = m) ∧
    (100 < m.length → computeMessage m = m.take 100 ++ ['.', '.', '.']) := by
  constructor
  · intro h
    unfold computeMessage
    rw [if_neg (by omega), List.take_of_length_le h, List.append_nil]
  · intro h
    unfold computeMessage
    rw [if_pos h]

/-- Witness for claim C3 at a short and at a long concrete report. -/
theorem computeMessage_truncation_witness :
    computeMessage ['a'] = ['a'] ∧
    computeMessage (List.replicate 101 'b')
      = (List.replicate 101 'b').take 100 ++ ['.', '.', '.'] :=
  ⟨(computeMessage_truncation ['a']).1 (by decide),
   (computeMessage_truncation (List.replicate 101 'b')).2 (by simp)⟩

/-- Claim C4: for every sequence of ingestion calls from both sources,
starting from the empty list, the retained notification list never exceeds
10 entries. -/
theorem runCalls_length_le_ten (calls : List IngestCall) :
    (runCalls calls).length ≤ 10 :=
  length_foldl_applyCall_le calls [] (by simp)

/-- Claim C5: for every sequence of ingestion calls from both sources,
starting from the empty list, no two retained notifications have identical
message strings; and the dedup key is the message text alone — an ingestion
of either kind (`isCustom` true or false) whose computed message already
occurs in the list leaves the list unchanged. -/
theorem runCalls_messages_distinct :
    (∀ calls : List IngestCall,
      (runCalls calls).Pairwise fun a b => a.message ≠ b.message) ∧
    (∀ (m : List Char) (ts : Option Nat) (isCustom : Bool) (now : Nat)
        (prev : List Notification),
      (∃ p ∈ prev, p.message = computeMessage m) →
      (addNotification m ts isCustom now prev).1 = prev) := by
  constructor
  · intro calls
    exact pairwise_foldl_applyCall calls [] (by simp)
  · intro m ts isCustom now prev hmem
    exact insertNotification_of_exists _ _ hmem

/-- Witness for claim C5: a custom-kind ingestion whose message equals the
message of a retained anomaly-kind notification is suppressed. -/
theorem runCalls_messages_distinct_witness :
    (addNotification ['a'] none true 7 [demoDup]).1 = [demoDup] :=
  runCalls_messages_distinct.2 ['a'] none true 7 [demoDup]
    ⟨demoDup, by decide, by decide⟩

/-- Claim C6: inserting a fresh notification into a full list of 10 evicts
exactly the oldest (last) entry, keeping the most-recent-first order with the
new item prepended; and ingesting the twelve distinct reports 1 to 12 in
order from the empty list retains exactly the messages 12 down to 3. -/
theorem insertNotification_evicts_oldest :
    (∀ (prev : List Notification) (n : Notification),
      prev.length = 10 → (∀ p ∈ prev, p.message ≠ n.message) →
      insertNotification n prev = n :: prev.dropLast) ∧
    (runCalls twelveCalls).map Notification.message
      = [['1', '2'], ['1', '1'], ['1', '0'], ['9'], ['8'], ['7'], ['6'],
         ['5'], ['4'], ['3']] := by
  constructor
  · intro prev n hlen hmem
    have hc : ¬((prev.any fun m => m.message == n.message) = true) := by
      intro hany
      obtain ⟨p, hp, he⟩ := List.any_eq_true.mp hany
      exact hmem p hp (beq_iff_eq.mp he)
    unfold insertNotification
    rw [if_neg hc, List.dropLast_eq_take, hlen]
  · decide

/-- Witness for claim C6: inserting the fresh notification `demoNew` into the
full ten-entry list `demoTen` prepends it and drops the last entry. -/
theorem insertNotification_evicts_oldest_witness :
    insertNotification demoNew demoTen = demoNew :: demoTen.dropLast :=
  insertNotification_evicts_oldest.1 demoTen demoNew (by decide) (by decide)

/-- Claim C7, counterexample: a fetched body with `success = false` but
`has_anomaly = true` and a non-empty report triggers no ingestion — the
notification list stays empty and no alert is raised — contradicting the
claim that `has_anomaly` plus a non-empty report alone suffices. -/
theorem fetchAnomalyData_success_required :
    (AnomalyResponse.mk false true ['x'] none).has_anomaly = true ∧
    (AnomalyResponse.mk false true ['x'] none).report ≠ [] ∧
    (fetchAnomalyData (AnomalyResponse.mk false true ['x'] none) 0
        ⟨none, none, []⟩).1.notifications = [] ∧
    (fetchAnomalyData (AnomalyResponse.mk false true ['x'] none) 0
        ⟨none, none, []⟩).2 = [] := by decide

/-- Claim C7, amended: `fetchAnomalyData` always replaces the anomaly
snapshot, and it invokes `addNotification` with the snapshot's report and
timestamp exactly when the body has `success = true`, `has_anomaly = true`
and a non-empty report — `success` is required in addition to the claim's
condition. -/
theorem fetchAnomalyData_ingest_iff (resp : AnomalyResponse) (now : Nat)
    (s : AppState) :
    fetchAnomalyData resp now s =
      if resp.success = true ∧ resp.has_anomaly = true ∧ resp.report ≠ [] then
        ({ systemStatus := s.systemStatus
           anomalyData := some ⟨resp.has_anomaly, resp.report, resp.timestamp⟩
           notifications :=
             (addNotification resp.report resp.timestamp false now
               s.notifications).1 },
         (addNotification resp.report resp.timestamp false now s.notifications).2)
      else
        ({ s with
           anomalyData := some ⟨resp.has_anomaly, resp.report, resp.timestamp⟩ },
         []) := by
  obtain ⟨suc, ha, rep, ts⟩ := resp
  obtain ⟨ss, ad, nt⟩ := s
  cases suc <;> cases ha <;> cases rep <;>
    simp [fetchAnomalyData, addNotification]

/-- Claim C8, failing input: two custom anomalies with distinct messages
ingested in the same batch while `Date.now()` reads the same millisecond 5
for both.  Both retained notifications carry the id 5 — the code's
creation-time ids collide for concurrently created notifications. -/
theorem notification_id_collision :
    ((addNotification ['b'] none true 5
        (addNotification ['a'] none true 5 []).1).1.map Notification.id)
      = [5, 5] := by decide

/-- Claim C9: when no anomaly snapshot has been fetched yet, the
acknowledgement action leaves the snapshot absent, whether or not the POST
fails — it neither creates a snapshot nor faults. -/
theorem clearAnomalyFlag_none_stays_none (postFails : Bool) :
    clearAnomalyFlag postFails none = none := by
  cases postFails <;> rfl

/-- Claim C10: when the custom-anomalies response body is not an array, or is
an empty array, no ingestion happens and the whole application state —
notification list, anomaly snapshot and system status — is unchanged, and no
alert is raised. -/
theorem fetchCustomAnomalies_frame (now : Nat) (s : AppState) :
    fetchCustomAnomalies CustomResponse.nonArray now s = (s, []) ∧
    fetchCustomAnomalies (CustomResponse.jsonArray []) now s = (s, []) := by
  exact ⟨rfl, rfl⟩

end Surveillance
